import Mathlib

/-!
Shallow embedding of the KeckODL observing-plan library (offset patterns,
detector and instrument configurations, observing blocks) together with
proofs about its time-estimation, calibration-generation and validation
logic.  Numeric values are modelled with exact rationals; Python dict
lookups and attribute errors are modelled with Option and Except; a raise
statement is modelled together with the name resolution of the exception
class it mentions, because several modules raise classes they never import.
-/

namespace KeckODL

/-! ## Offset frames (src/odl/offset.py and src/keckODL/offset.py)

OffsetFrame is an abstract base class; SkyFrame and InstrumentFrame are its
direct subclasses.  The Python class of a frame instance is modelled by
FrameClass, and the isinstance relation by FrameClass.isSubclassOf. -/

inductive FrameClass where
  | offsetFrame
  | skyFrame
  | instrumentFrame
deriving DecidableEq, Repr

/-- The Python isinstance relation between a frame instance of class a and a
class b: SkyFrame and InstrumentFrame both inherit from OffsetFrame. -/
def FrameClass.isSubclassOf : FrameClass → FrameClass → Bool
  | _, .offsetFrame => true
  | .skyFrame, .skyFrame => true
  | .instrumentFrame, .instrumentFrame => true
  | _, _ => false

structure OffsetFrame where
  cls : FrameClass
  name : String
deriving DecidableEq, Repr

/-- The SkyFrame() default instance used by TelescopeOffset and Stare. -/
def skyFrame : OffsetFrame := ⟨.skyFrame, "SkyFrame"⟩

/-- A plain OffsetFrame() instance (the abstract base can be instantiated). -/
def genericFrame : OffsetFrame := ⟨.offsetFrame, "GenericFrame"⟩

/-- An InstrumentFrame instance such as the MOSFIRE slit frame. -/
def instrumentFrame (n : String) : OffsetFrame := ⟨.instrumentFrame, n⟩

/-! ## Angular quantities and unit standardization -/

inductive AngleUnit where
  | arcsec
  | arcmin
  | degree
deriving DecidableEq, Repr

/-- Conversion factor of the unit to arcseconds (astropy to(u.arcsec)). -/
def AngleUnit.inArcsec : AngleUnit → ℚ
  | .arcsec => 1
  | .arcmin => 60
  | .degree => 3600

/-- An argument to the TelescopeOffset constructor: either a raw Python
number (int or float) or an astropy Quantity with an angular unit. -/
inductive OffsetInput where
  | raw (v : ℚ)
  | qty (v : ℚ) (u : AngleUnit)
deriving DecidableEq, Repr

def dxWarnMsg : String := "No offset unit given for dx, assuming arcseconds"
def dyWarnMsg : String := "No offset unit given for dy, assuming arcseconds"
def drWarnMsg : String := "No offset unit given for dr, assuming degrees"

/-- standardize_units treatment of dx or dy: raw numbers are assumed to be
arcseconds, warning exactly when the magnitude exceeds 1e-6; quantities are
converted to arcseconds.  Returns the arcsecond value and the warning flag. -/
def stdToArcsec : OffsetInput → ℚ × Bool
  | .raw v => (v, decide (|v| > 1/1000000))
  | .qty v u => (v * u.inArcsec, false)

/-- standardize_units treatment of dr: raw numbers are assumed to be degrees,
warning exactly when the magnitude exceeds 1e-1; quantities are converted to
degrees. -/
def stdToDegree : OffsetInput → ℚ × Bool
  | .raw v => (v, decide (|v| > 1/10))
  | .qty v u => (v * u.inArcsec / 3600, false)

/-! ## TelescopeOffset (src/odl/offset.py, lines 116-243) -/

structure TelescopeOffset where
  /-- Offset in X, stored in arcseconds after standardize_units. -/
  dx : ℚ
  /-- Offset in Y, stored in arcseconds after standardize_units. -/
  dy : ℚ
  /-- Offset in rotation, stored in degrees after standardize_units. -/
  dr : ℚ
  frame : OffsetFrame
  relative : Bool
  posname : String
  guide : Bool
deriving DecidableEq, Repr

/-- The TelescopeOffset constructor: stores the fields, runs
standardize_units (normalizing dx and dy to arcseconds and dr to degrees and
emitting unit-assumption warnings for raw numeric input above the negligible
thresholds) and validate (the frame is always a known OffsetFrame here).
Returns the constructed object and the list of warnings emitted. -/
def TelescopeOffset.new (dx dy dr : OffsetInput) (frame : OffsetFrame)
    (relative : Bool) (posname : String) (guide : Bool) :
    TelescopeOffset × List String :=
  let x := stdToArcsec dx
  let y := stdToArcsec dy
  let r := stdToDegree dr
  (⟨x.1, y.1, r.1, frame, relative, posname, guide⟩,
   (if x.2 then [dxWarnMsg] else []) ++
   (if y.2 then [dyWarnMsg] else []) ++
   (if r.2 then [drWarnMsg] else []))

/-- The dictionary produced by TelescopeOffset.to_dict: dx and dy values in
arcseconds, dr in degrees, the frame reduced to its name. -/
structure OffsetDict where
  dx : ℚ
  dy : ℚ
  dr : ℚ
  frame : String
  relative : Bool
  posname : String
  guide : Bool
deriving DecidableEq, Repr

def TelescopeOffset.to_dict (o : TelescopeOffset) : OffsetDict :=
  ⟨o.dx, o.dy, o.dr, o.frame.name, o.relative, o.posname, o.guide⟩

/-- Reconstruction of a TelescopeOffset from a dict (as in parse_yaml): the
numeric entries are raw floats, so they go through the constructor as
unit-less values; the frame object is rebuilt from the frame name. -/
def offsetFromDict (d : OffsetDict) (frame : OffsetFrame) :
    TelescopeOffset × List String :=
  TelescopeOffset.new (.raw d.dx) (.raw d.dy) (.raw d.dr) frame
    d.relative d.posname d.guide

/-! ## OffsetPattern (src/odl/offset.py, lines 249-297) -/

structure OffsetPattern where
  data : List TelescopeOffset
  name : String
  /-- The Python attribute named repeat. -/
  repeats : ℕ
deriving DecidableEq, Repr

/-- OffsetPattern.validate: with a nonempty list, every offset frame must be
an isinstance of the class of the first offset frame, otherwise the method
raises OffsetError (there is no FrameError class in the repository). -/
def OffsetPattern.validate (p : OffsetPattern) : Except String Unit :=
  match p.data with
  | [] => .ok ()
  | o0 :: _ =>
    if p.data.all (fun o => o.frame.cls.isSubclassOf o0.frame.cls) then .ok ()
    else .error "OffsetError"

/-- The OffsetPattern constructor: stores the offsets, builds the display
name from the given name and the repeat count, and runs validate. -/
def OffsetPattern.new (offsets : List TelescopeOffset) (nm : String)
    (rep : ℕ) : Except String OffsetPattern :=
  let p : OffsetPattern := ⟨offsets, nm ++ " x" ++ toString rep, rep⟩
  match p.validate with
  | .ok _ => .ok p
  | .error e => .error e

def exceptIsOk {ε α : Type} : Except ε α → Bool
  | .ok _ => true
  | .error _ => false

/-- Length of the pattern underlying a construction result (Python len). -/
def patternLen : Except String OffsetPattern → Option ℕ
  | .ok p => some p.data.length
  | .error _ => none

/-- The single offset of the Stare pattern (dx=0, dy=0, posname base). -/
def stareOffset (guide : Bool) : TelescopeOffset :=
  (TelescopeOffset.new (.raw 0) (.raw 0) (.raw 0) skyFrame false "base" guide).1

/-- The Stare factory pattern: one offset at 0,0 in the SkyFrame, with the
requested repeat count.  Validation trivially succeeds. -/
def Stare (rep : ℕ) (guide : Bool := true) : OffsetPattern :=
  ⟨[stareOffset guide], "Stare x" ++ toString rep, rep⟩

/-- The MOSFIRE slit frame used by the ABBA factory pattern. -/
def mosfireSlit : OffsetFrame := instrumentFrame "MOSFIRE Slit"

/-- One offset of the ABBA pattern: dy is given as a Quantity in arcseconds. -/
def abbaOffset (dy : ℚ) (pos : String) (guide : Bool) : TelescopeOffset :=
  (TelescopeOffset.new (.raw 0) (.qty dy .arcsec) (.raw 0) mosfireSlit
    false pos guide).1

/-- The ABBA factory pattern (four offsets A, B, B, A along the slit at the
default 1.25 arcsec throw), with the requested repeat count. -/
def ABBA (rep : ℕ) (guide : Bool := true) : OffsetPattern :=
  ⟨[abbaOffset (5/4) "A" guide, abbaOffset (-(5/4)) "B" guide,
    abbaOffset (-(5/4)) "B" guide, abbaOffset (5/4) "A" guide],
   "ABBA (1.25 arcsec) x" ++ toString rep, rep⟩

/-! ## Detector configurations (src/odl/detector_config.py)

The duration-estimation formulas of the detector-config family tree:
generic DetectorConfig.estimate_duration returns exptime; the CCD family
returns (erase_time + exptime + readout_time + other_overhead) * nexp; the
CMOS family returns (overhead + exptime) * nexp.  The KCWI blue detector is
a CCD-family config whose readout_time is a table lookup keyed by readout
speed, amplifier count and binning (src/odl/keck/kcwi/detector.py). -/

/-- Readout-time table of the KCWI blue detector, keyed on readoutmode
(0 slow, 1 fast), ampmode (0-10, reduced to quad, single or dual) and
binning (1x1 or 2x2).  Keys outside the table raise KeyError in Python;
those arguments are outside the modelled domain and are mapped to 0 here
(no claim evaluates them). -/
def kcwiBlueReadoutTime (readoutmode ampmode : ℕ) (binning : String) : ℚ :=
  let namps : String :=
    if ampmode = 0 then "quad"
    else if ampmode ≤ 8 then "single"
    else "dual"
  match readoutmode, namps, binning with
  | 0, "single", "1x1" => 337
  | 0, "single", "2x2" => 106
  | 0, "dual", "1x1" => 170
  | 0, "dual", "2x2" => 53
  | 0, "quad", "1x1" => 85
  | 0, "quad", "2x2" => 27
  | 1, "single", "1x1" => 75
  | 1, "single", "2x2" => 25
  | 1, "dual", "1x1" => 38
  | 1, "dual", "2x2" => 13
  | 1, "quad", "1x1" => 19
  | 1, "quad", "2x2" => 7
  | _, _, _ => 0

inductive DetectorFamily where
  /-- The abstract DetectorConfig base: estimate_duration = exptime. -/
  | generic
  /-- The CCD family with its erase, readout and other overheads. -/
  | ccd (eraseTime readoutTime otherOverhead : ℚ)
  /-- The CMOS family with its per-exposure overhead. -/
  | cmos (overhead : ℚ)
deriving DecidableEq, Repr

structure DetectorConfig where
  instrument : String := ""
  exptime : ℚ := 0
  /-- Number of exposures.  Present on src/odl/detector_config.py configs;
  the src/keckODL/detector_config.py variant lacks this attribute although
  src/keckODL/block.py reads it (see the C1 and C2 status notes). -/
  nexp : ℕ := 1
  family : DetectorFamily := .generic
  dark : Bool := false
deriving DecidableEq, Repr

/-- DetectorConfig.estimate_duration with the per-family overrides of
src/odl/detector_config.py. -/
def DetectorConfig.estimate_duration (dc : DetectorConfig) : ℚ :=
  match dc.family with
  | .generic => dc.exptime
  | .ccd e r o => (e + dc.exptime + r + o) * dc.nexp
  | .cmos o => (o + dc.exptime) * dc.nexp

/-- Modelled from the spec: src/keckODL/block.py calls a method
estimate_clock_time on each detector config, but no file under src defines
it; the spec describes one per-detector-family duration formula set, so the
clock time is taken to be the per-family estimate_duration formula. -/
def DetectorConfig.estimate_clock_time (dc : DetectorConfig) : ℚ :=
  dc.estimate_duration

/-- The KCWIblueDetectorConfig constructor (src/odl/keck/kcwi/detector.py):
a CCD-family config for instrument KCWI with zero erase time and other
overhead and the tabulated readout time. -/
def KCWIblueDetectorConfig (exptime : ℚ) (nexp : ℕ := 1)
    (readoutmode : ℕ := 0) (ampmode : ℕ := 9) (dark : Bool := false)
    (binning : String := "1x1") : DetectorConfig :=
  { instrument := "KCWI"
    exptime := exptime
    nexp := nexp
    family := .ccd 0 (kcwiBlueReadoutTime readoutmode ampmode binning) 0
    dark := dark }

/-! ## KCWI instrument configuration (src/odl/kcwi/config.py) -/

/-- Python str() of an Option String as it appears in f-strings. -/
def pyStrOptS : Option String → String
  | none => "None"
  | some s => s

/-- Python str() of a Bool as it appears in f-strings. -/
def pyStrB : Bool → String
  | true => "True"
  | false => "False"

/-- The module constant lamp_exptimes = FEAR 30, THAR 45, CONT 6; a lookup
with any other key raises KeyError, modelled by none. -/
def lampExptimes : String → Option ℚ
  | "FEAR" => some 30
  | "THAR" => some 45
  | "CONT" => some 6
  | _ => none

structure KCWIConfig where
  name : String := ""
  slicer : String := "medium"
  bluegrating : String := "BH3"
  bluefilter : String := "KBlue"
  bluecwave : ℤ := 4800
  bluepwave : Option ℤ := none
  bluenandsmask : Bool := false
  redgrating : String := "BH3"
  redfilter : String := "KRed"
  redcwave : ℤ := 4800
  redpwave : Option ℤ := none
  rednandsmask : Bool := false
  calmirror : String := "Sky"
  calobj : String := "Dark"
  arclamp : Option String := none
  domeflatlamp : Option Bool := none
  polarizer : String := "Sky"
deriving DecidableEq, Repr

/-- The KCWIConfig constructor name logic: FPC slicer short-circuits the
name, otherwise slicer, blue grating and central wavelength (the f-string
renders the astropy Angstrom quantity); calibration fields append their
markers. -/
def KCWIConfig.new (cfg : KCWIConfig) : KCWIConfig :=
  let base :=
    if cfg.slicer = "FPC" then "FPC"
    else cfg.slicer ++ " " ++ cfg.bluegrating ++ " " ++
      toString cfg.bluecwave ++ " Angstrom"
  let n1 := if cfg.calobj ≠ "Dark" then base ++ " calobj=" ++ cfg.calobj
            else base
  let n2 := match cfg.arclamp with
            | some l => n1 ++ " arclamp=" ++ l
            | none => n1
  let n3 := match cfg.domeflatlamp with
            | some b => n2 ++ " domeflatlamp=" ++ pyStrB b
            | none => n2
  { cfg with name := n3 }

/-- A KCWIConfig built with all constructor defaults. -/
def kcwiDefaultConfig : KCWIConfig := KCWIConfig.new {}

/-! ## Observing blocks (src/odl/block.py and src/keckODL/block.py) -/

/-- The concrete Python class of a block instance.  The subclasses fix the
blocktype tag at construction (Science, Telluric, StandardStar,
Calibration, Focus); a plain ObservingBlock is the abstract base. -/
inductive BlockKind where
  | observingBlock
  | scienceBlock
  | telluricBlock
  | standardStarBlock
  | calibrationBlock
  | focusBlock
deriving DecidableEq, Repr

/-- A Python object reference: an instance identity plus the value of its
fields.  Two references with equal values but different ids model two
value-equal but distinct instances. -/
structure PyObj (α : Type) where
  id : ℕ
  val : α
deriving DecidableEq, Repr

structure ObservingBlock where
  kind : BlockKind := .observingBlock
  target : Option String := none
  pattern : OffsetPattern
  instconfig : Option (PyObj KCWIConfig) := none
  detconfig : List DetectorConfig := []
deriving DecidableEq, Repr

/-- Python max over a nonempty list (max of an empty list raises
ValueError, modelled by none). -/
def pyMax : List ℚ → Option ℚ
  | [] => none
  | x :: xs => some (xs.foldl max x)

structure TimeEstimate where
  shutterOpen : ℚ
  wallClock : ℚ
deriving DecidableEq, Repr

/-- ObservingBlock.estimate_time (src/keckODL/block.py, lines 75-89), list
branch: the detector time is the max of the per-config clock times, the
exposure time is the max of exptime * nexp, and both are multiplied by
repeat * len(pattern). -/
def ObservingBlock.estimate_time (b : ObservingBlock) : Option TimeEstimate :=
  match pyMax (b.detconfig.map DetectorConfig.estimate_clock_time),
        pyMax (b.detconfig.map (fun dc => dc.exptime * dc.nexp)) with
  | some dt, some et =>
    some ⟨(b.pattern.repeats : ℚ) * b.pattern.data.length * et,
          (b.pattern.repeats : ℚ) * b.pattern.data.length * dt⟩
  | _, _ => none

/-- ObservingBlock.estimate_duration (src/odl/block.py, lines 129-135):
repeat * len(pattern) * max of the per-config durations. -/
def ObservingBlock.estimate_duration (b : ObservingBlock) : Option ℚ :=
  (pyMax (b.detconfig.map DetectorConfig.estimate_duration)).map
    (fun dt => (b.pattern.repeats : ℚ) * b.pattern.data.length * dt)

/-- ObservingBlockList.estimate_time (src/keckODL/block.py, lines 187-197):
starts from zero totals and adds each block contribution in order.  The
Python method prints the totals and returns None; the computed totals are
the modelled result. -/
def ObservingBlockList.estimate_time (L : List ObservingBlock) :
    Option TimeEstimate :=
  L.foldl
    (fun acc b => do
      let a ← acc
      let e ← b.estimate_time
      pure ⟨a.shutterOpen + e.shutterOpen, a.wallClock + e.wallClock⟩)
    (some ⟨0, 0⟩)

/-- ObservingBlockList.validate (src/odl/block.py lines 227-232 and
src/keckODL/block.py lines 179-184): raises BlockError at the first element
whose concrete type is not exactly ObservingBlock; a plain ObservingBlock
element then has its own validate called, which is a pass. -/
def ObservingBlockList.validate : List ObservingBlock → Except String Unit
  | [] => .ok ()
  | b :: rest =>
    if b.kind = .observingBlock then ObservingBlockList.validate rest
    else .error "BlockError"

/-! ## KCWI calibration synthesis (src/odl/kcwi/config.py, lines 117-193)

Each variant method deep-copies the science config, mutates the
calibration-relevant fields and the name, builds a detector config with the
looked-up exposure time and wraps everything in a CalibrationBlock.  The
deep copies are fresh instances; their identities are never compared, so
the produced blocks carry id 0. -/

/-- KCWIConfig.contbars: calobj MedBarsA, arclamp CONT, exposure time from
lamp_exptimes at the CONT key, Stare pattern with one repeat. -/
def KCWIConfig.contbars (ic : KCWIConfig) : Option ObservingBlock :=
  let c := { ic with calobj := "MedBarsA", arclamp := some "CONT" }
  let c := { c with name := c.name ++ " arclamp=CONT" ++ " calobj=MedBarsA" }
  (lampExptimes "CONT").map fun e =>
    { kind := .calibrationBlock
      target := none
      pattern := Stare 1
      instconfig := some ⟨0, c⟩
      detconfig := [KCWIblueDetectorConfig e] }

/-- KCWIConfig.arcs: arclamp set to the requested lamp, calobj FlatA,
exposure time from lamp_exptimes (KeyError for an unknown lamp), Stare
pattern with one repeat. -/
def KCWIConfig.arcs (ic : KCWIConfig) (lampname : String) :
    Option ObservingBlock :=
  let c := { ic with arclamp := some lampname, calobj := "FlatA" }
  let c := { c with
    name := c.name ++ " arclamp=" ++ lampname ++ " calobj=FlatA" }
  (lampExptimes lampname).map fun e =>
    { kind := .calibrationBlock
      target := none
      pattern := Stare 1
      instconfig := some ⟨0, c⟩
      detconfig := [KCWIblueDetectorConfig e] }

/-- KCWIConfig.domeflats: dome-flat lamp turned on (unless off), a
DomeFlats target, 100 second exposure, Stare pattern with three repeats. -/
def KCWIConfig.domeflatsBlock (ic : KCWIConfig) (off : Bool := false) :
    ObservingBlock :=
  let c := { ic with domeflatlamp := some (!off) }
  let c := { c with name := c.name ++ " domeflatlamp=" ++ pyStrB (!off) }
  { kind := .calibrationBlock
    target := some "DomeFlats"
    pattern := Stare 3
    instconfig := some ⟨0, c⟩
    detconfig := [KCWIblueDetectorConfig 100] }

/-- KCWIConfig.bias: zero second dark exposure, Stare pattern with seven
repeats. -/
def KCWIConfig.bias (ic : KCWIConfig) : ObservingBlock :=
  let c := { ic with name := ic.name ++ " bias" }
  { kind := .calibrationBlock
    target := none
    pattern := Stare 7
    instconfig := some ⟨0, c⟩
    detconfig := [KCWIblueDetectorConfig 0 1 0 9 true] }

/-- KCWIConfig.cals: with internal calibrations enabled appends contbars,
the FEAR, THAR and CONT arcs and the bias block in that order; with dome
flats enabled appends the dome-flat block last. -/
def KCWIConfig.cals (ic : KCWIConfig) (internal : Bool := true)
    (domeflats : Bool := true) : Option (List ObservingBlock) := do
  let part1 ←
    if internal then do
      let cb ← ic.contbars
      let a1 ← ic.arcs "FEAR"
      let a2 ← ic.arcs "THAR"
      let a3 ← ic.arcs "CONT"
      pure [cb, a1, a2, a3, ic.bias]
    else pure []
  let part2 := if domeflats then [ic.domeflatsBlock] else []
  pure (part1 ++ part2)

/-! ## ObservingBlockList.cals (src/odl/block.py, lines 248-255)

The instrument configs of the non-calibration, non-focus blocks are passed
through a Python set.  InstrumentConfig defines neither an equality nor a
hash method, so the set compares the configs by object identity: two
value-equal but distinct instances stay distinct.  Set iteration order is
unspecified in Python; it is modelled as first-occurrence order, and no
theorem below depends on that order. -/

/-- Identity comparison of two config references as the Python set sees
them: the None singleton equals itself, and objects are equal only when
they are the same instance. -/
def sameIdentity {α : Type} : Option (PyObj α) → Option (PyObj α) → Bool
  | none, none => true
  | some a, some b => a.id = b.id
  | _, _ => false

/-- The Python set of a list of config references, under the default
identity-based equality, in first-occurrence order. -/
def pySetByIdentity {α : Type} (l : List (Option (PyObj α))) :
    List (Option (PyObj α)) :=
  l.foldl (fun acc x => if acc.any (sameIdentity x) then acc else acc ++ [x])
    []

/-- The loop of ObservingBlockList.cals: extend the accumulated block list
with the cals() output of each config in the set (calling cals on a None
config raises AttributeError, modelled like the KeyError by none). -/
def calsLoop : List (Option (PyObj KCWIConfig)) → Option (List ObservingBlock)
  | [] => some []
  | oic :: rest => do
    let ic ← oic
    let cs ← ic.val.cals true true
    let rs ← calsLoop rest
    pure (cs ++ rs)

/-- ObservingBlockList.cals: collect the instconfigs of the blocks that are
not CalibrationBlock or FocusBlock instances, reduce them to the identity
set, and concatenate the cals() output of each one. -/
def ObservingBlockList.cals (L : List ObservingBlock) :
    Option (List ObservingBlock) :=
  calsLoop (pySetByIdentity ((L.filter (fun b =>
    !(b.kind = BlockKind.calibrationBlock) &&
    !(b.kind = BlockKind.focusBlock))).map (·.instconfig)))

/-! ## Python identifier resolution for the detector-config modules

Several methods raise or read identifiers that are not bound in their
module: raising an exception class resolves the class name first, and an
unbound name makes the raise statement itself fail with NameError.  The
scope of each relevant function is recorded as the list of its local names
(parameters; no other local assignment precedes the failing lookup) and
the list of the names bound at module level (imports plus top-level
definitions). -/

/-- Resolution of an identifier against a local and a module scope. -/
def resolveIdent (locals globals : List String) (x : String) :
    Option String :=
  if x ∈ locals then some x
  else if x ∈ globals then some x
  else none

/-- Evaluating a raise statement: the named exception class is resolved in
the module scope (none of the raising functions has a matching local); an
unbound class name turns the raise into a NameError. -/
def pyRaise (globals : List String) (excName : String) : String :=
  if excName ∈ globals then excName else "NameError"

/-- Module-level names of src/odl/detector_config.py. -/
def odlDetectorConfigGlobals : List String :=
  ["Path", "re", "warn", "yaml", "fits",
   "DetectorConfigError", "DetectorConfigWarning",
   "DetectorConfig", "IRDetectorConfig", "CCDDetectorConfig",
   "CMOSDetectorConfig"]

/-- Module-level names of src/odl/mosfire/detector.py: only
IRDetectorConfig is imported from the detector_config module;
DetectorConfigError is not. -/
def mosfireDetectorGlobals : List String :=
  ["re", "warn", "deepcopy", "IRDetectorConfig",
   "MOSFIREDetectorConfig", "default_acq", "bright_acq"]

/-- Module-level names of src/odl/keck/nires/detector.py: only
IRDetectorConfig is imported from odl.detector_config;
DetectorConfigError is not. -/
def niresDetectorGlobals : List String :=
  ["re", "warn", "deepcopy", "IRDetectorConfig",
   "NIRESSpecDetectorConfig", "NIRESScamDetectorConfig"]

/-- Local names in scope inside IRDetectorConfig.__init__ when the
statement reading the identifier name executes: the parameters only (the
body assigns no local variable before that line). -/
def irInitLocals : List String :=
  ["self", "instrument", "detector", "exptime", "nexp", "readoutmode",
   "coadds"]

/-- Local names in scope inside CCDDetectorConfig.__init__ when the
statement reading the identifier name executes. -/
def ccdInitLocals : List String :=
  ["self", "instrument", "detector", "exptime", "nexp", "readoutmode",
   "ampmode", "dark", "binning", "window"]

/-- The attribute state built by the constructor chain of
src/odl/detector_config.py before the failing lookup. -/
structure DetectorConfigState where
  instrument : Option String
  detector : String
  name : String
  exptime : Option ℚ
  nexp : ℕ
  readoutmode : Option String
  coadds : ℕ := 1
  ampmode : Option String := none
  dark : Bool := false
  binning : String := "1x1"
  window : Option String := none
deriving DecidableEq, Repr

/-- DetectorConfig.__init__ (the abstract base): plain attribute
assignments, always succeeds. -/
def DetectorConfig_init (instrument : Option String) (detector : String)
    (exptime : Option ℚ) (nexp : ℕ) (readoutmode : Option String) :
    DetectorConfigState :=
  { instrument := instrument
    detector := detector
    name := "GenericDetectorConfig"
    exptime := exptime
    nexp := nexp
    readoutmode := readoutmode }

/-- IRDetectorConfig.__init__ (src/odl/detector_config.py, lines 114-122):
after the base initialization and the coadds assignment the body reads the
identifier name, which is neither a parameter nor a module-level name, so
the constructor fails with NameError for every argument value.  The ok
branch records the state reached before that line and is unreachable. -/
def IRDetectorConfig_init (instrument : Option String) (detector : String)
    (exptime : Option ℚ) (nexp : ℕ) (readoutmode : Option String)
    (coadds : ℕ) : Except String DetectorConfigState :=
  let s := DetectorConfig_init instrument detector exptime nexp readoutmode
  let s := { s with coadds := coadds }
  match resolveIdent irInitLocals odlDetectorConfigGlobals "name" with
  | none => .error "NameError"
  | some _ => .ok s

/-- CCDDetectorConfig.__init__ (src/odl/detector_config.py, lines
160-172): after the base initialization and the ampmode, dark, binning and
window assignments the body reads the unbound identifier name, so the
constructor fails with NameError for every argument value. -/
def CCDDetectorConfig_init (instrument : Option String) (detector : String)
    (exptime : Option ℚ) (nexp : ℕ) (readoutmode : Option String)
    (ampmode : Option String) (dark : Bool) (binning : String)
    (window : Option String) : Except String DetectorConfigState :=
  let s := DetectorConfig_init instrument detector exptime nexp readoutmode
  let s := { s with ampmode := ampmode, dark := dark, binning := binning,
                    window := window }
  match resolveIdent ccdInitLocals odlDetectorConfigGlobals "name" with
  | none => .error "NameError"
  | some _ => .ok s

/-- MOSFIREDetectorConfig.__init__ (src/odl/mosfire/detector.py, lines
14-19): delegates to IRDetectorConfig.__init__ with instrument MOSFIRE. -/
def MOSFIREDetectorConfig_init (exptime : Option ℚ)
    (readoutmode : Option String) (coadds : ℕ) :
    Except String DetectorConfigState :=
  IRDetectorConfig_init (some "MOSFIRE") "" exptime 1 readoutmode coadds

/-! ## Readout-mode validation (src/odl/mosfire/detector.py lines 24-40 and
src/odl/keck/nires/detector.py lines 26-42) -/

/-- Model of re.match of the pattern (M?)CDS(\d*) on a string: an anchored
prefix match, with backtracking over the optional M; returns the greedy
digits group as a character list when the pattern matches. -/
def matchMCDS (s : String) : Option (List Char) :=
  match s.data with
  | 'M' :: 'C' :: 'D' :: 'S' :: rest => some (rest.takeWhile Char.isDigit)
  | 'C' :: 'D' :: 'S' :: rest => some (rest.takeWhile Char.isDigit)
  | _ => none

/-- The numeric value of a digit string. -/
def digitsToNat (l : List Char) : ℕ :=
  l.foldl (fun n c => 10 * n + (c.toNat - 48)) 0

/-- Python int() of a digit string: the empty string raises ValueError. -/
def pyIntOfDigits (ds : List Char) : Option ℕ :=
  if ds = [] then none else some (digitsToNat ds)

/-- MOSFIREDetectorConfig.validate: no regex match raises
DetectorConfigError (an unbound name in that module, hence NameError);
otherwise int of the digits group (ValueError when empty) is compared with
the MOSFIRE cap of 16 reads. -/
def MOSFIREDetectorConfig_validate (readoutmode : String) :
    Except String Unit :=
  match matchMCDS readoutmode with
  | none => .error (pyRaise mosfireDetectorGlobals "DetectorConfigError")
  | some digits =>
    match pyIntOfDigits digits with
    | none => .error "ValueError"
    | some nreads =>
      if nreads > 16 then
        .error (pyRaise mosfireDetectorGlobals "DetectorConfigError")
      else .ok ()

/-- NIRESSpecDetectorConfig.validate: same grammar with the NIRES cap of
32 reads (DetectorConfigError is unbound in that module too). -/
def NIRESSpecDetectorConfig_validate (readoutmode : String) :
    Except String Unit :=
  match matchMCDS readoutmode with
  | none => .error (pyRaise niresDetectorGlobals "DetectorConfigError")
  | some digits =>
    match pyIntOfDigits digits with
    | none => .error "ValueError"
    | some nreads =>
      if nreads > 32 then
        .error (pyRaise niresDetectorGlobals "DetectorConfigError")
      else .ok ()

/-! ## Target.coord (src/keckODL/target.py, lines 296-327)

Coordinate propagation itself is delegated to astropy; the model records
which SkyCoord is built and whether apply_space_motion is called on it.
Times are decimal years; the current time is a parameter. -/

/-- The arguments of the SkyCoord built inside coord(). -/
structure SkyCoordSpec where
  RA : ℚ
  Dec : ℚ
  frame : String
  equinox : Option ℚ
  /-- The obstime argument of the base SkyCoord, which is the epoch of the
  coordinate (or now when no epoch is set), not the observation time. -/
  epochTime : ℚ
  pmRACosdec : ℚ
  pmDec : ℚ
  distanceKpc : ℚ := 1
deriving DecidableEq, Repr

inductive CoordResult where
  /-- The un-propagated base coordinate. -/
  | base (sc : SkyCoordSpec)
  /-- apply_space_motion of the base coordinate to the given new obstime. -/
  | propagated (sc : SkyCoordSpec) (newObstime : ℚ)
deriving DecidableEq, Repr

def CoordResult.isPropagated : CoordResult → Bool
  | .base _ => false
  | .propagated _ _ => true

structure Target where
  name : String := ""
  RA : ℚ := 0
  Dec : ℚ := 0
  frame : String := "icrs"
  equinox : Option ℚ := some 2000
  /-- Proper motion in RA in arcsec per year. -/
  PMRA : ℚ := 0
  /-- Proper motion in Dec in arcsec per year. -/
  PMDec : ℚ := 0
  epoch : Option ℚ := none
  obstime : Option ℚ := none
deriving DecidableEq, Repr

/-- The base SkyCoord built by coord() from the target fields. -/
def Target.baseSkyCoord (t : Target) (now : ℚ) : SkyCoordSpec :=
  { RA := t.RA
    Dec := t.Dec
    frame := t.frame
    equinox := t.equinox
    epochTime := t.epoch.getD now
    pmRACosdec := t.PMRA
    pmDec := t.PMDec }

/-- Target.coord: builds the base SkyCoord at the epoch and applies space
motion to the observation time (defaulting to now) exactly when both
proper-motion components have nonzero magnitude. -/
def Target.coord (t : Target) (now : ℚ) : CoordResult :=
  let sc := t.baseSkyCoord now
  if |t.PMRA| > 0 ∧ |t.PMDec| > 0 then
    .propagated sc (t.obstime.getD now)
  else
    .base sc

/-! ## Helper lemmas -/

lemma foldlMax_mem (xs : List ℚ) (a : ℚ) :
    xs.foldl max a = a ∨ xs.foldl max a ∈ xs := by
  induction xs generalizing a with
  | nil => exact Or.inl rfl
  | cons x xs ih =>
    rw [List.foldl_cons]
    rcases ih (max a x) with h | h
    · rw [h]
      rcases max_choice a x with h2 | h2
      · exact Or.inl h2
      · exact Or.inr (by rw [h2]; exact List.mem_cons_self x xs)
    · exact Or.inr (List.mem_cons_of_mem x h)

lemma le_foldlMax (xs : List ℚ) (a : ℚ) : a ≤ xs.foldl max a := by
  induction xs generalizing a with
  | nil => exact le_refl a
  | cons x xs ih =>
    rw [List.foldl_cons]
    exact le_trans (le_max_left a x) (ih (max a x))

lemma mem_le_foldlMax (xs : List ℚ) (a y : ℚ) (hy : y ∈ xs) :
    y ≤ xs.foldl max a := by
  induction xs generalizing a with
  | nil => cases hy
  | cons x xs ih =>
    rw [List.foldl_cons]
    rcases List.mem_cons.mp hy with rfl | h
    · exact le_trans (le_max_right a y) (le_foldlMax xs (max a y))
    · exact ih (max a x) h

/-- Python max of a nonempty list is a member and an upper bound. -/
lemma pyMax_spec {l : List ℚ} {m : ℚ} (h : pyMax l = some m) :
    m ∈ l ∧ ∀ x ∈ l, x ≤ m := by
  match l with
  | x :: xs =>
    have hm : xs.foldl max x = m := by
      simpa [pyMax] using h
    subst hm
    constructor
    · rcases foldlMax_mem xs x with h1 | h1
      · rw [h1]; exact List.mem_cons_self x xs
      · exact List.mem_cons_of_mem x h1
    · intro y hy
      rcases List.mem_cons.mp hy with rfl | h2
      · exact le_foldlMax xs y
      · exact mem_le_foldlMax xs x y h2

@[simp] lemma estimate_clock_time_def (dc : DetectorConfig) :
    dc.estimate_clock_time = dc.estimate_duration := rfl

lemma estimate_clock_time_fun :
    DetectorConfig.estimate_clock_time = DetectorConfig.estimate_duration :=
  rfl

/-! ## C1: block duration uses the max across detector configs -/

/-- C1: for every ObservingBlock with at least one attached detector
config, the estimated wall-clock duration is repeat times pattern length
times the maximum (a member that bounds all entries, hence not the sum) of
the per-config detector durations, and the estimated shutter-open time is
repeat times pattern length times the maximum of exptime * nexp rather
than the full detector duration.  Both the keckODL estimate_time and the
odl estimate_duration variants are covered. -/
theorem block_time_uses_max (b : ObservingBlock) (h : b.detconfig ≠ []) :
    ∃ dt et,
      dt ∈ b.detconfig.map DetectorConfig.estimate_duration ∧
      (∀ x ∈ b.detconfig.map DetectorConfig.estimate_duration, x ≤ dt) ∧
      et ∈ b.detconfig.map (fun dc => dc.exptime * (dc.nexp : ℚ)) ∧
      (∀ x ∈ b.detconfig.map (fun dc => dc.exptime * (dc.nexp : ℚ)), x ≤ et) ∧
      b.estimate_time = some
        ⟨(b.pattern.repeats : ℚ) * b.pattern.data.length * et,
         (b.pattern.repeats : ℚ) * b.pattern.data.length * dt⟩ ∧
      b.estimate_duration = some
        ((b.pattern.repeats : ℚ) * b.pattern.data.length * dt) := by
  rcases hdc : b.detconfig with _ | ⟨d, ds⟩
  · exact absurd hdc h
  · refine ⟨(ds.map DetectorConfig.estimate_duration).foldl max
        d.estimate_duration,
      (ds.map (fun dc => dc.exptime * (dc.nexp : ℚ))).foldl max
        (d.exptime * (d.nexp : ℚ)), ?_, ?_, ?_, ?_, ?_, ?_⟩
    · exact (pyMax_spec (l := (d :: ds).map DetectorConfig.estimate_duration)
        rfl).1
    · exact (pyMax_spec (l := (d :: ds).map DetectorConfig.estimate_duration)
        rfl).2
    · exact (pyMax_spec
        (l := (d :: ds).map (fun dc => dc.exptime * (dc.nexp : ℚ))) rfl).1
    · exact (pyMax_spec
        (l := (d :: ds).map (fun dc => dc.exptime * (dc.nexp : ℚ))) rfl).2
    · simp [ObservingBlock.estimate_time, hdc, pyMax,
        estimate_clock_time_fun]
    · simp [ObservingBlock.estimate_duration, hdc, pyMax]

/-- A two-arm block used to witness C1: generic 10 second and 30 second
configs, the first with two exposures. -/
def c1Block : ObservingBlock :=
  { kind := .scienceBlock
    pattern := Stare 2
    detconfig := [{ exptime := 10, nexp := 2 }, { exptime := 30 }] }

theorem block_time_uses_max_witness :
    c1Block.detconfig ≠ [] ∧
    ∃ dt et,
      dt ∈ c1Block.detconfig.map DetectorConfig.estimate_duration ∧
      (∀ x ∈ c1Block.detconfig.map DetectorConfig.estimate_duration,
        x ≤ dt) ∧
      et ∈ c1Block.detconfig.map (fun dc => dc.exptime * (dc.nexp : ℚ)) ∧
      (∀ x ∈ c1Block.detconfig.map (fun dc => dc.exptime * (dc.nexp : ℚ)),
        x ≤ et) ∧
      c1Block.estimate_time = some
        ⟨(c1Block.pattern.repeats : ℚ) * c1Block.pattern.data.length * et,
         (c1Block.pattern.repeats : ℚ) * c1Block.pattern.data.length * dt⟩ ∧
      c1Block.estimate_duration = some
        ((c1Block.pattern.repeats : ℚ) * c1Block.pattern.data.length * dt) :=
  ⟨by decide, block_time_uses_max c1Block (by decide)⟩

/-! ## C2: list time estimation is a plain sum -/

lemma estimate_foldl_general (L : List ObservingBlock) (a : TimeEstimate)
    (h : ∀ b ∈ L, (ObservingBlock.estimate_time b).isSome) :
    L.foldl
      (fun acc b => do
        let a ← acc
        let e ← b.estimate_time
        pure (⟨a.shutterOpen + e.shutterOpen, a.wallClock + e.wallClock⟩ :
          TimeEstimate))
      (some a) =
    some ⟨a.shutterOpen +
            (L.map fun b =>
              ((ObservingBlock.estimate_time b).getD ⟨0, 0⟩).shutterOpen).sum,
          a.wallClock +
            (L.map fun b =>
              ((ObservingBlock.estimate_time b).getD ⟨0, 0⟩).wallClock).sum⟩ := by
  induction L generalizing a with
  | nil => simp
  | cons b t ih =>
    obtain ⟨e, he⟩ := Option.isSome_iff_exists.mp (h b (List.mem_cons_self b t))
    rw [List.foldl_cons]
    have step :
        (do
          let a2 ← some a
          let e2 ← ObservingBlock.estimate_time b
          pure (⟨a2.shutterOpen + e2.shutterOpen,
                 a2.wallClock + e2.wallClock⟩ : TimeEstimate)) =
        some ⟨a.shutterOpen + e.shutterOpen, a.wallClock + e.wallClock⟩ := by
      rw [he]; rfl
    rw [step, ih _ (fun b2 hb2 => h b2 (List.mem_cons_of_mem b hb2))]
    simp [he, add_assoc]

/-- The 1-step Stare block of the C2 scenario: repeat 2, 10 second
exposure, one exposure per step. -/
def c2StareBlock : ObservingBlock :=
  { kind := .scienceBlock
    pattern := Stare 2
    detconfig := [{ exptime := 10 }] }

/-- The 4-step ABBA block of the C2 scenario: repeat 1, 5 second exposure,
one exposure per step. -/
def c2ABBABlock : ObservingBlock :=
  { kind := .scienceBlock
    pattern := ABBA 1
    detconfig := [{ exptime := 5 }] }

/-- C2: ObservingBlockList.estimate_time computes the sum over all blocks
of the per-block shutter-open and wall-clock times, and on the two-block
scenario (1-step Stare, repeat 2, 10 s; 4-step ABBA, repeat 1, 5 s) the
shutter-open total is 1*2*10 + 4*1*5 = 40 seconds. -/
theorem obl_estimate_time_sums (L : List ObservingBlock)
    (h : ∀ b ∈ L, (ObservingBlock.estimate_time b).isSome) :
    ObservingBlockList.estimate_time L =
      some ⟨(L.map fun b =>
              ((ObservingBlock.estimate_time b).getD ⟨0, 0⟩).shutterOpen).sum,
            (L.map fun b =>
              ((ObservingBlock.estimate_time b).getD ⟨0, 0⟩).wallClock).sum⟩ ∧
    ObservingBlockList.estimate_time [c2StareBlock, c2ABBABlock] =
      some ⟨40, 40⟩ := by
  constructor
  · have := estimate_foldl_general L ⟨0, 0⟩ h
    simpa [ObservingBlockList.estimate_time] using this
  · simp [ObservingBlockList.estimate_time, ObservingBlock.estimate_time,
      pyMax, c2StareBlock, c2ABBABlock, Stare, ABBA,
      DetectorConfig.estimate_duration, DetectorConfig.estimate_clock_time]
    norm_num

theorem obl_estimate_time_sums_witness :
    (∀ b ∈ [c2StareBlock, c2ABBABlock],
      (ObservingBlock.estimate_time b).isSome) ∧
    ObservingBlockList.estimate_time [c2StareBlock, c2ABBABlock] =
      some ⟨([c2StareBlock, c2ABBABlock].map fun b =>
              ((ObservingBlock.estimate_time b).getD ⟨0, 0⟩).shutterOpen).sum,
            ([c2StareBlock, c2ABBABlock].map fun b =>
              ((ObservingBlock.estimate_time b).getD ⟨0, 0⟩).wallClock).sum⟩ :=
  ⟨by decide,
   (obl_estimate_time_sums [c2StareBlock, c2ABBABlock] (by decide)).1⟩

/-! ## C3: the KCWI calibration recipe -/

/-- The six calibration blocks produced by KCWIConfig.cals with internal
calibrations and dome flats enabled, in order: contbars, FEAR arc, THAR
arc, CONT arc, bias, dome flats. -/
def kcwiContbarsConfig (cfg : KCWIConfig) : KCWIConfig :=
  { cfg with calobj := "MedBarsA", arclamp := some "CONT",
             name := cfg.name ++ " arclamp=CONT" ++ " calobj=MedBarsA" }

def kcwiArcsConfig (cfg : KCWIConfig) (lampname : String) : KCWIConfig :=
  { cfg with arclamp := some lampname, calobj := "FlatA",
             name := cfg.name ++ " arclamp=" ++ lampname ++ " calobj=FlatA" }

def kcwiBiasConfig (cfg : KCWIConfig) : KCWIConfig :=
  { cfg with name := cfg.name ++ " bias" }

def kcwiDomeflatsConfig (cfg : KCWIConfig) : KCWIConfig :=
  { cfg with domeflatlamp := some true,
             name := cfg.name ++ " domeflatlamp=" ++ pyStrB true }

def kcwiCalsBlocks (cfg : KCWIConfig) : List ObservingBlock :=
  [{ kind := .calibrationBlock
     target := none
     pattern := Stare 1
     instconfig := some ⟨0, kcwiContbarsConfig cfg⟩
     detconfig := [KCWIblueDetectorConfig 6] },
   { kind := .calibrationBlock
     target := none
     pattern := Stare 1
     instconfig := some ⟨0, kcwiArcsConfig cfg "FEAR"⟩
     detconfig := [KCWIblueDetectorConfig 30] },
   { kind := .calibrationBlock
     target := none
     pattern := Stare 1
     instconfig := some ⟨0, kcwiArcsConfig cfg "THAR"⟩
     detconfig := [KCWIblueDetectorConfig 45] },
   { kind := .calibrationBlock
     target := none
     pattern := Stare 1
     instconfig := some ⟨0, kcwiArcsConfig cfg "CONT"⟩
     detconfig := [KCWIblueDetectorConfig 6] },
   { kind := .calibrationBlock
     target := none
     pattern := Stare 7
     instconfig := some ⟨0, kcwiBiasConfig cfg⟩
     detconfig := [KCWIblueDetectorConfig 0 1 0 9 true] },
   { kind := .calibrationBlock
     target := some "DomeFlats"
     pattern := Stare 3
     instconfig := some ⟨0, kcwiDomeflatsConfig cfg⟩
     detconfig := [KCWIblueDetectorConfig 100] }]

lemma kcwi_cals_eq (cfg : KCWIConfig) :
    cfg.cals true true = some (kcwiCalsBlocks cfg) := rfl

/-- C3 (counterexample): on the default KCWI config the per-block pattern
repeats of cals(internal=True, domeflats=True) are 1, 1, 1, 1, 7, 3; the
CONT arc (the fourth block) has pattern repeat 1, not the claimed 6 (its
exposure time is the 6). -/
theorem kcwi_cals_cont_repeat_cex :
    (kcwiDefaultConfig.cals true true).map
      (fun l => l.map fun b => b.pattern.repeats) =
      some [1, 1, 1, 1, 7, 3] ∧
    (1 : ℕ) ≠ 6 := ⟨rfl, by decide⟩

/-- C3 (amended): for every KCWI config, cals(internal=True,
domeflats=True) returns exactly six calibration blocks in the fixed order
contbars, FEAR arc, THAR arc, CONT arc, bias, dome flats; the detector
exposure times are 6, 30, 45, 6, 0 and 100 seconds, matching the lamp
table FEAR=30, THAR=45, CONT=6; the pattern repeats are 1, 1, 1, 1, 7
(bias) and 3 (dome flats): the CONT arc is taken with repeat 1, its 6 is
an exposure time. -/
theorem kcwi_cals_structure (cfg : KCWIConfig) :
    cfg.cals true true = some (kcwiCalsBlocks cfg) ∧
    (kcwiCalsBlocks cfg).length = 6 ∧
    ((kcwiCalsBlocks cfg).map fun b => b.kind) =
      List.replicate 6 BlockKind.calibrationBlock ∧
    ((kcwiCalsBlocks cfg).map fun b => b.detconfig.map (·.exptime)) =
      [[6], [30], [45], [6], [0], [100]] ∧
    ((kcwiCalsBlocks cfg).map fun b => b.pattern.repeats) =
      [1, 1, 1, 1, 7, 3] ∧
    ((kcwiCalsBlocks cfg).map fun b =>
        b.instconfig.map fun ic => ic.val.arclamp) =
      [some (some "CONT"), some (some "FEAR"), some (some "THAR"),
       some (some "CONT"), some cfg.arclamp, some cfg.arclamp] ∧
    ((kcwiCalsBlocks cfg).map fun b =>
        b.instconfig.map fun ic => ic.val.calobj) =
      [some "MedBarsA", some "FlatA", some "FlatA", some "FlatA",
       some cfg.calobj, some cfg.calobj] ∧
    lampExptimes "FEAR" = some 30 ∧ lampExptimes "THAR" = some 45 ∧
    lampExptimes "CONT" = some 6 :=
  ⟨rfl, rfl, rfl, rfl, rfl, rfl, rfl, rfl, rfl, rfl⟩

/-! ## C4: calibration de-duplication is by identity, not value -/

/-- A science block holding a reference (with instance identity n) to a
KCWI instrument config. -/
def sciBlock (n : ℕ) (cfg : KCWIConfig) : ObservingBlock :=
  { kind := .scienceBlock
    pattern := Stare 1
    instconfig := some ⟨n, cfg⟩
    detconfig := [] }

/-- C4 (counterexample): two science blocks carrying value-equal but
distinct-instance KCWI configs produce twelve calibration blocks, not the
six a single calibration set has: the Python set does not identify the two
value-equal configs because InstrumentConfig has no equality or hash
method. -/
theorem obl_cals_duplicates_value_equal_cex :
    (sciBlock 1 kcwiDefaultConfig).instconfig.map PyObj.val =
      (sciBlock 2 kcwiDefaultConfig).instconfig.map PyObj.val ∧
    (sciBlock 1 kcwiDefaultConfig).instconfig ≠
      (sciBlock 2 kcwiDefaultConfig).instconfig ∧
    (ObservingBlockList.cals
        [sciBlock 1 kcwiDefaultConfig, sciBlock 2 kcwiDefaultConfig]).map
      List.length = some 12 ∧
    (kcwiDefaultConfig.cals true true).map List.length = some 6 ∧
    (12 : ℕ) ≠ 6 := by
  refine ⟨rfl, ?_, rfl, rfl, by decide⟩
  intro hcontra
  have : (1 : ℕ) = 2 := congrArg (fun o => (o.map PyObj.id).getD 0) hcontra
  exact absurd this (by decide)

/-- C4 (amended): ObservingBlockList.cals collects the instrument configs
of the blocks that are not calibration or focus blocks, de-duplicates them
by object identity (Python set with the default hash), and concatenates
each remaining config cals() output: two blocks with the same config
instance contribute one calibration set, while two blocks carrying
value-equal but distinct instances contribute one calibration set each,
and calibration and focus blocks contribute nothing. -/
theorem obl_cals_by_identity (cfg : KCWIConfig) (i j : ℕ) (hij : i ≠ j) :
    ObservingBlockList.cals [sciBlock i cfg, sciBlock j cfg] =
      (cfg.cals true true).bind (fun cs => some (cs ++ cs)) ∧
    ObservingBlockList.cals [sciBlock i cfg, sciBlock i cfg] =
      cfg.cals true true ∧
    ObservingBlockList.cals
      [{ sciBlock i cfg with kind := .calibrationBlock },
       { sciBlock j cfg with kind := .focusBlock }] = some [] := by
  refine ⟨?_, ?_, rfl⟩
  · have hji : ¬ (j = i) := fun h => hij h.symm
    simp [ObservingBlockList.cals, sciBlock, pySetByIdentity, sameIdentity,
      hji, calsLoop, kcwi_cals_eq, List.filter]
  · simp [ObservingBlockList.cals, sciBlock, pySetByIdentity, sameIdentity,
      calsLoop, kcwi_cals_eq, List.filter]

theorem obl_cals_by_identity_witness :
    (1 : ℕ) ≠ 2 ∧
    ObservingBlockList.cals
        [sciBlock 1 kcwiDefaultConfig, sciBlock 2 kcwiDefaultConfig] =
      (kcwiDefaultConfig.cals true true).bind (fun cs => some (cs ++ cs)) :=
  ⟨by decide, (obl_cals_by_identity kcwiDefaultConfig 1 2 (by decide)).1⟩

/-! ## C5: readout-mode validation -/

/-- C5: the MOSFIRE and NIRES validate bodies implement the claimed caps
(16 and 32) and grammar, but the exception that actually escapes the
MOSFIRE error paths is NameError, not DetectorConfigError, because
src/odl/mosfire/detector.py never imports DetectorConfigError; NIRES with
the same MCDS17 string validates successfully as claimed. -/
theorem mosfire_readoutmode_namerror :
    MOSFIREDetectorConfig_validate "MCDS17" = .error "NameError" ∧
    NIRESSpecDetectorConfig_validate "MCDS17" = .ok () ∧
    MOSFIREDetectorConfig_validate "Fowler" = .error "NameError" ∧
    "DetectorConfigError" ∉ mosfireDetectorGlobals ∧
    "DetectorConfigError" ∈ odlDetectorConfigGlobals :=
  ⟨rfl, rfl, rfl, by decide, by decide⟩

/-! ## C6: frame consistency of offset patterns -/

/-- An offset whose frame is a plain OffsetFrame instance. -/
def genOffset : TelescopeOffset :=
  (TelescopeOffset.new (.raw 0) (.raw 0) (.raw 0) genericFrame false ""
    true).1

/-- An offset in the SkyFrame. -/
def skyOffset : TelescopeOffset :=
  (TelescopeOffset.new (.raw 0) (.raw 0) (.raw 0) skyFrame false "" true).1

/-- An offset in an InstrumentFrame. -/
def instOffset : TelescopeOffset :=
  (TelescopeOffset.new (.raw 0) (.raw 0) (.raw 0)
    (instrumentFrame "InstrumentFrame") false "" true).1

/-- C6 (counterexample): a list whose offsets do not all share one frame
type need not fail: with a plain OffsetFrame first and a SkyFrame second,
the isinstance check accepts the subclass instance and construction
succeeds; and when construction does fail (SkyFrame then InstrumentFrame),
the exception class is OffsetError, not FrameError (no FrameError class
exists in the repository). -/
theorem offset_pattern_mixed_frames_cex :
    genOffset.frame.cls ≠ skyOffset.frame.cls ∧
    exceptIsOk (OffsetPattern.new [genOffset, skyOffset] "mixed" 1) =
      true ∧
    OffsetPattern.new [skyOffset, instOffset] "mixed2" 1 =
      .error "OffsetError" ∧
    "OffsetError" ≠ "FrameError" :=
  ⟨by decide, rfl, rfl, by decide⟩

/-- C6 (amended): constructing an OffsetPattern fails with an OffsetError
(the frame-mismatch error; the claimed FrameError class does not exist)
when some offset frame is not an isinstance of the class of the first
offset frame; when all offsets share one frame type construction succeeds,
and the pattern length equals the number of offsets, not multiplied by the
repeat count. -/
theorem offset_pattern_frame_rules (offsets : List TelescopeOffset)
    (nm : String) (rep : ℕ) (c : FrameClass)
    (hall : ∀ o ∈ offsets, o.frame.cls = c) :
    OffsetPattern.new offsets nm rep =
      .ok ⟨offsets, nm ++ " x" ++ toString rep, rep⟩ ∧
    patternLen (OffsetPattern.new offsets nm rep) = some offsets.length ∧
    ∀ offs2 : List TelescopeOffset, ∀ o0 r2, offs2 = o0 :: r2 →
      (∃ o ∈ offs2, o.frame.cls.isSubclassOf o0.frame.cls = false) →
      OffsetPattern.new offs2 nm rep = .error "OffsetError" := by
  have hsub : ∀ c2 : FrameClass, c2.isSubclassOf c2 = true := by
    intro c2
    cases c2 <;> rfl
  have hok : OffsetPattern.new offsets nm rep =
      .ok ⟨offsets, nm ++ " x" ++ toString rep, rep⟩ := by
    unfold OffsetPattern.new OffsetPattern.validate
    rcases offsets with _ | ⟨o0, rest⟩
    · rfl
    · have h0 : o0.frame.cls = c := hall o0 (List.mem_cons_self o0 rest)
      have : (o0 :: rest).all
          (fun o => o.frame.cls.isSubclassOf o0.frame.cls) = true := by
        rw [List.all_eq_true]
        intro o ho
        rw [hall o ho, h0]
        exact hsub c
      simp only [this, if_true]
  refine ⟨hok, by rw [hok]; rfl, ?_⟩
  rintro offs2 o0 r2 rfl ⟨o, ho, hbad⟩
  unfold OffsetPattern.new OffsetPattern.validate
  have : (o0 :: r2).all
      (fun o => o.frame.cls.isSubclassOf o0.frame.cls) = false := by
    rw [List.all_eq_false]
    exact ⟨o, ho, by simp [hbad]⟩
  simp only [this, if_false]
  rfl

theorem offset_pattern_frame_rules_witness :
    (∀ o ∈ [skyOffset, skyOffset], o.frame.cls = FrameClass.skyFrame) ∧
    OffsetPattern.new [skyOffset, skyOffset] "pair" 5 =
      .ok ⟨[skyOffset, skyOffset], "pair" ++ " x" ++ toString 5, 5⟩ ∧
    patternLen (OffsetPattern.new [skyOffset, skyOffset] "pair" 5) =
      some 2 :=
  ⟨by decide,
   (offset_pattern_frame_rules [skyOffset, skyOffset] "pair" 5
      FrameClass.skyFrame (by decide)).1,
   (offset_pattern_frame_rules [skyOffset, skyOffset] "pair" 5
      FrameClass.skyFrame (by decide)).2.1⟩

/-! ## C7: unit normalization, warnings and the to_dict round trip -/

/-- C7: a TelescopeOffset constructed from raw numeric dx, dy and dr
stores dx and dy in arcseconds and dr in degrees (raw values are assumed
to be in those units), emits each unit-assumption warning exactly when the
magnitude exceeds the negligible threshold (1e-6 arcsec for dx and dy,
1e-1 deg for dr), and to_dict reports the arcsecond values so that a
TelescopeOffset rebuilt from that dict has the same dx and dy arcsecond
values. -/
theorem telescope_offset_raw_roundtrip (vx vy vr : ℚ) (fr : OffsetFrame)
    (rel : Bool) (pn : String) (g : Bool) :
    (TelescopeOffset.new (.raw vx) (.raw vy) (.raw vr) fr rel pn g).1.dx =
      vx ∧
    (TelescopeOffset.new (.raw vx) (.raw vy) (.raw vr) fr rel pn g).1.dy =
      vy ∧
    (TelescopeOffset.new (.raw vx) (.raw vy) (.raw vr) fr rel pn g).1.dr =
      vr ∧
    (dxWarnMsg ∈ (TelescopeOffset.new (.raw vx) (.raw vy) (.raw vr) fr rel
        pn g).2 ↔ |vx| > 1/1000000) ∧
    (dyWarnMsg ∈ (TelescopeOffset.new (.raw vx) (.raw vy) (.raw vr) fr rel
        pn g).2 ↔ |vy| > 1/1000000) ∧
    (drWarnMsg ∈ (TelescopeOffset.new (.raw vx) (.raw vy) (.raw vr) fr rel
        pn g).2 ↔ |vr| > 1/10) ∧
    (TelescopeOffset.new (.raw vx) (.raw vy) (.raw vr) fr rel pn
        g).1.to_dict.dx = vx ∧
    (TelescopeOffset.new (.raw vx) (.raw vy) (.raw vr) fr rel pn
        g).1.to_dict.dy = vy ∧
    (offsetFromDict (TelescopeOffset.new (.raw vx) (.raw vy) (.raw vr) fr
        rel pn g).1.to_dict fr).1.dx =
      (TelescopeOffset.new (.raw vx) (.raw vy) (.raw vr) fr rel pn
        g).1.dx ∧
    (offsetFromDict (TelescopeOffset.new (.raw vx) (.raw vy) (.raw vr) fr
        rel pn g).1.to_dict fr).1.dy =
      (TelescopeOffset.new (.raw vx) (.raw vy) (.raw vr) fr rel pn
        g).1.dy := by
  have hxy : dxWarnMsg ≠ dyWarnMsg := by decide
  have hxr : dxWarnMsg ≠ drWarnMsg := by decide
  have hyr : dyWarnMsg ≠ drWarnMsg := by decide
  refine ⟨rfl, rfl, rfl, ?_, ?_, ?_, rfl, rfl, rfl, rfl⟩ <;>
    · simp only [TelescopeOffset.new, stdToArcsec, stdToDegree,
        List.mem_append]
      split_ifs <;>
        simp_all [List.mem_singleton, hxy, hxr, hyr, hxy.symm, hxr.symm,
          hyr.symm]

/-! ## C8: proper-motion propagation in Target.coord -/

/-- C8: for a Target with both proper-motion components zero, coord
returns the un-propagated base coordinate regardless of obstime, and
propagation is applied exactly when both components are nonzero. -/
theorem target_coord_propagation (t : Target) (now : ℚ) :
    (t.PMRA = 0 ∧ t.PMDec = 0 → t.coord now = .base (t.baseSkyCoord now)) ∧
    ((t.coord now).isPropagated = true ↔ (t.PMRA ≠ 0 ∧ t.PMDec ≠ 0)) := by
  constructor
  · rintro ⟨h1, h2⟩
    simp [Target.coord, h1, h2]
  · unfold Target.coord
    by_cases h : |t.PMRA| > 0 ∧ |t.PMDec| > 0
    · simp only [h, if_true, CoordResult.isPropagated]
      simpa [abs_pos] using h
    · simp only [h, if_false, CoordResult.isPropagated]
      constructor
      · intro hfalse
        cases hfalse
      · intro hne
        exact absurd ⟨abs_pos.mpr hne.1, abs_pos.mpr hne.2⟩ h

/-- A stationary target with an observation time set. -/
def c8Target : Target := { name := "HZ44", RA := 100, Dec := 30,
                           obstime := some 2030 }

theorem target_coord_propagation_witness :
    (c8Target.PMRA = 0 ∧ c8Target.PMDec = 0) ∧
    c8Target.coord 2026 = .base (c8Target.baseSkyCoord 2026) :=
  ⟨⟨rfl, rfl⟩, (target_coord_propagation c8Target 2026).1 ⟨rfl, rfl⟩⟩

/-! ## C9: the IR and CCD detector-config constructors read an unbound
identifier -/

/-- C9: every call of the IRDetectorConfig or CCDDetectorConfig
constructor in src/odl/detector_config.py fails with NameError for all
argument values, because the body reads the identifier name which is
neither a parameter nor a module-level name; MOSFIREDetectorConfig
delegates to IRDetectorConfig and therefore also fails unconditionally. -/
theorem detector_config_init_nameerror (instrument : Option String)
    (detector : String) (exptime : Option ℚ) (nexp : ℕ)
    (readoutmode : Option String) (coadds : ℕ) (ampmode : Option String)
    (dark : Bool) (binning : String) (window : Option String)
    (mexptime : Option ℚ) (mreadout : Option String) (mcoadds : ℕ) :
    IRDetectorConfig_init instrument detector exptime nexp readoutmode
      coadds = .error "NameError" ∧
    CCDDetectorConfig_init instrument detector exptime nexp readoutmode
      ampmode dark binning window = .error "NameError" ∧
    MOSFIREDetectorConfig_init mexptime mreadout mcoadds =
      .error "NameError" ∧
    resolveIdent irInitLocals odlDetectorConfigGlobals "name" = none :=
  ⟨rfl, rfl, rfl, rfl⟩

/-! ## C10: block-list validation rejects every block subclass -/

/-- C10: ObservingBlockList.validate raises BlockError whenever some
element concrete type is not exactly ObservingBlock; in particular any
list containing a ScienceBlock, TelluricBlock, StandardStarBlock,
CalibrationBlock or FocusBlock instance fails validation. -/
theorem obl_validate_rejects_subclasses (L : List ObservingBlock)
    (b : ObservingBlock) (hb : b ∈ L)
    (hk : b.kind ≠ BlockKind.observingBlock) :
    ObservingBlockList.validate L = .error "BlockError" := by
  induction L with
  | nil => cases hb
  | cons a t ih =>
    rcases List.mem_cons.mp hb with rfl | hb2
    · simp [ObservingBlockList.validate, hk]
    · by_cases ha : a.kind = BlockKind.observingBlock
      · simp only [ObservingBlockList.validate, ha, if_true]
        exact ih hb2
      · simp [ObservingBlockList.validate, ha]

/-- A ScienceBlock instance (blocktype tag science). -/
def c10ScienceBlock : ObservingBlock :=
  { kind := .scienceBlock, pattern := Stare 1 }

theorem obl_validate_rejects_subclasses_witness :
    (c10ScienceBlock ∈ [c10ScienceBlock] ∧
     c10ScienceBlock.kind ≠ BlockKind.observingBlock) ∧
    ObservingBlockList.validate [c10ScienceBlock] = .error "BlockError" :=
  ⟨⟨List.mem_singleton.mpr rfl, by decide⟩,
   obl_validate_rejects_subclasses [c10ScienceBlock] c10ScienceBlock
     (List.mem_singleton.mpr rfl) (by decide)⟩

end KeckODL
